import Mathlib

/-!
Shallow embedding of the task-manager schema and its serverless event proxy.

The data model, check constraints, row-level-security (RLS) policies, the
`create_default_categories` trigger, and the `google-calendar-sync` HTTP
handler are translated from the SQL migrations and the TypeScript source.
Timestamp columns (`created_at`, `updated_at`, `uploaded_at`) are omitted:
no verified property mentions them.  `uuid` identifiers are modelled as
`Nat`; the database's id generator (`gen_random_uuid()`) is modelled by a
`nextId` counter threaded through the store.

PostgreSQL semantics embedded here:
  * `CHECK` constraints pass when the value is NULL (three-valued logic),
    so a check on a nullable column accepts `none`.
  * an RLS `USING` clause silently filters rows: a SELECT returns only the
    rows whose predicate holds, and an UPDATE/DELETE touches only those
    rows, reporting the affected-row count; no error is raised for rows
    the predicate hides.
  * an RLS `WITH CHECK` clause on INSERT/UPDATE rejects the statement with
    an error when the new row fails the predicate.
  * `ON DELETE CASCADE` foreign keys delete referencing child rows
    together with the parent.
  * an `AFTER INSERT` trigger runs in the same transaction as the insert;
    an error anywhere aborts the whole transaction, which the `Except`
    monad models by discarding the intermediate state.
-/

namespace TaskManager

/-- Row of the `clients` table (migration 20251128063431). -/
structure ClientRow where
  id : Nat
  user_id : Nat
  name : String
  deriving DecidableEq, Repr

/-- Row of the `client_categories` table (migration 20251128063431). -/
structure CategoryRow where
  id : Nat
  client_id : Nat
  category : String
  deriving DecidableEq, Repr

/-- Row of the `tasks` table, with the columns added by the task-features
migration (`due_date`, `start_date`, `priority`, `tags`); the added columns
are nullable, hence `Option`. -/
structure TaskRow where
  id : Nat
  user_id : Nat
  client_id : Option Nat
  category : String
  name : String
  description : String
  assignee : String
  status : String
  due_date : Option String
  start_date : Option String
  priority : Option String
  tags : Option (List String)
  deriving DecidableEq, Repr

/-- Row of the `task_comments` table (task-features migration). -/
structure CommentRow where
  id : Nat
  task_id : Nat
  user_id : Nat
  user_email : String
  comment_text : String
  deriving DecidableEq, Repr

/-- Row of the `task_attachments` table (migration 20251209063429). -/
structure AttachmentRow where
  id : Nat
  task_id : Nat
  file_url : String
  file_name : String
  file_size : Nat
  file_type : String
  user_id : Nat
  deriving DecidableEq, Repr

/-- Row of the `calendar_events` table (migration 20251209063429). -/
structure EventRow where
  id : Nat
  google_event_id : Option String
  title : String
  description : String
  date : String
  time : String
  user_id : Nat
  deriving DecidableEq, Repr

/-- The persistent store: one list per table, plus the id generator. -/
structure DB where
  clients : List ClientRow
  client_categories : List CategoryRow
  tasks : List TaskRow
  task_comments : List CommentRow
  task_attachments : List AttachmentRow
  calendar_events : List EventRow
  nextId : Nat
  deriving DecidableEq, Repr

/-- `CHECK (category IN ('tasks', 'gtm', 'recurring'))` on `tasks.category`
and `client_categories.category` (both NOT NULL). -/
def categoryCheck (c : String) : Bool :=
  c == "tasks" || c == "gtm" || c == "recurring"

/-- `CHECK (status IN ('Pending', 'In-Progress', 'Completed'))` on
`tasks.status` (NOT NULL). -/
def statusCheck (s : String) : Bool :=
  s == "Pending" || s == "In-Progress" || s == "Completed"

/-- `CHECK (priority IN ('Low', 'Medium', 'High', 'Urgent'))` on the
nullable `tasks.priority` column: per SQL three-valued logic the check
passes when the value is NULL. -/
def priorityCheck (p : Option String) : Bool :=
  match p with
  | none => true
  | some v => v == "Low" || v == "Medium" || v == "High" || v == "Urgent"

/-- Policy "Users can create clients": `WITH CHECK (auth.uid() = user_id)`. -/
def clients_insert_check (uid : Nat) (row : ClientRow) : Bool :=
  uid == row.user_id

/-- Policies "Users can view/update/delete their own clients":
`USING (auth.uid() = user_id)`. -/
def clients_using (uid : Nat) (row : ClientRow) : Bool :=
  uid == row.user_id

/-- Policy "Users can create tasks": `WITH CHECK (auth.uid() = user_id)`.
This is the whole predicate: the referenced client's owner is not consulted. -/
def tasks_insert_check (uid : Nat) (row : TaskRow) : Bool :=
  uid == row.user_id

/-- Policies "Users can view/update/delete their own tasks":
`USING (auth.uid() = user_id)`. -/
def tasks_using (uid : Nat) (row : TaskRow) : Bool :=
  uid == row.user_id

/-- Foreign-key test: does a `clients` row with this id exist? -/
def clientExists (db : DB) (cid : Nat) : Bool :=
  db.clients.any (fun c => c.id == cid)

/-- `UNIQUE(client_id, category)` test on `client_categories`: true when
the pair is already present. -/
def categoryPairTaken (db : DB) (cid : Nat) (cat : String) : Bool :=
  db.client_categories.any (fun r => r.client_id == cid && r.category == cat)

/-- Insert one row into `client_categories` (as done by the trigger body):
check constraint, foreign key to `clients`, and the
`UNIQUE(client_id, category)` constraint; the id comes from the generator. -/
def insertCategoryRow (db : DB) (cid : Nat) (cat : String) : Except String DB :=
  if !categoryCheck cat then
    .error "client_categories_category_check"
  else if !clientExists db cid then
    .error "client_categories_client_id_fkey"
  else if categoryPairTaken db cid cat then
    .error "duplicate key value violates unique constraint client_categories_client_id_category_key"
  else
    .ok { db with
          client_categories := db.client_categories ++ [⟨db.nextId, cid, cat⟩],
          nextId := db.nextId + 1 }

/-- Trigger function `create_default_categories()`: inserts the three rows
`('tasks')`, `('gtm')`, `('recurring')` for `NEW.id`, in that order. -/
def create_default_categories (db : DB) (new : ClientRow) : Except String DB :=
  match insertCategoryRow db new.id "tasks" with
  | .error e => .error e
  | .ok db1 =>
    match insertCategoryRow db1 new.id "gtm" with
    | .error e => .error e
    | .ok db2 => insertCategoryRow db2 new.id "recurring"

/-- The bare `INSERT INTO clients` statement: RLS `WITH CHECK` of policy
"Users can create clients", then primary-key uniqueness. -/
def insertClientRow (db : DB) (uid : Nat) (row : ClientRow) : Except String DB :=
  if !clients_insert_check uid row then
    .error "new row violates row-level security policy for table clients"
  else if db.clients.any (fun c => c.id == row.id) then
    .error "duplicate key value violates unique constraint clients_pkey"
  else
    .ok { db with clients := db.clients ++ [row] }

/-- A client insert as one transaction: the row insert followed by the
`AFTER INSERT` trigger `create_categories_on_client_insert`; any failure
aborts the whole transaction (the `Except` error carries no state). -/
def insertClient (db : DB) (uid : Nat) (row : ClientRow) : Except String DB :=
  match insertClientRow db uid row with
  | .error e => .error e
  | .ok db1 => create_default_categories db1 row

/-- Membership of an optional foreign key in a list of deleted parent ids. -/
def optMem (l : List Nat) : Option Nat → Bool
  | none => false
  | some k => l.contains k

/-- `INSERT INTO tasks`: RLS `WITH CHECK` of policy "Users can create
tasks", primary key, foreign key `tasks_client_id_fkey` (nullable), and the
three check constraints. -/
def insertTask (db : DB) (uid : Nat) (row : TaskRow) : Except String DB :=
  if !tasks_insert_check uid row then
    .error "new row violates row-level security policy for table tasks"
  else if db.tasks.any (fun t => t.id == row.id) then
    .error "duplicate key value violates unique constraint tasks_pkey"
  else if !(match row.client_id with
            | none => true
            | some cid => clientExists db cid) then
    .error "tasks_client_id_fkey"
  else if !categoryCheck row.category then
    .error "tasks_category_check"
  else if !statusCheck row.status then
    .error "tasks_status_check"
  else if !priorityCheck row.priority then
    .error "tasks_priority_check"
  else
    .ok { db with tasks := db.tasks ++ [row] }

/-- `SELECT * FROM clients`: RLS `USING` of policy "Users can view their
own clients" filters the visible rows. -/
def selectClients (db : DB) (uid : Nat) : List ClientRow :=
  db.clients.filter (clients_using uid)

/-- `SELECT * FROM clients WHERE id = cid` under the same RLS filter. -/
def selectClientById (db : DB) (uid : Nat) (cid : Nat) : List ClientRow :=
  db.clients.filter (fun c => c.id == cid && clients_using uid c)

/-- `UPDATE clients SET name = newName WHERE id = cid`: RLS `USING` filters
the targeted rows; the statement reports the affected-row count.  The
update leaves `user_id` unchanged, so the `WITH CHECK` clause holds for
every row the `USING` clause admitted and cannot fail. -/
def updateClientName (db : DB) (uid : Nat) (cid : Nat) (newName : String) :
    DB × Nat :=
  let pred := fun c : ClientRow => c.id == cid && clients_using uid c
  ({ db with
     clients := db.clients.map (fun c => if pred c then { c with name := newName } else c) },
   (db.clients.filter pred).length)

/-- `DELETE FROM clients WHERE id = cid`: RLS `USING` filters the targeted
rows; `ON DELETE CASCADE` then removes the `client_categories` and `tasks`
rows of each deleted client, and in turn the `task_comments` and
`task_attachments` rows of each cascaded task.  Returns the new store and
the number of deleted client rows. -/
def deleteClient (db : DB) (uid : Nat) (cid : Nat) : DB × Nat :=
  let pred := fun c : ClientRow => c.id == cid && clients_using uid c
  let deadClients := (db.clients.filter pred).map (fun c => c.id)
  let deadTasks :=
    (db.tasks.filter (fun t => optMem deadClients t.client_id)).map (fun t => t.id)
  ({ db with
     clients := db.clients.filter (fun c => !pred c),
     client_categories :=
       db.client_categories.filter (fun r => !deadClients.contains r.client_id),
     tasks := db.tasks.filter (fun t => !optMem deadClients t.client_id),
     task_comments :=
       db.task_comments.filter (fun r => !deadTasks.contains r.task_id),
     task_attachments :=
       db.task_attachments.filter (fun r => !deadTasks.contains r.task_id) },
   (db.clients.filter pred).length)

/-- `DELETE FROM tasks WHERE id = tid`: RLS `USING` filters the targeted
rows; `ON DELETE CASCADE` removes the `task_comments` and
`task_attachments` rows of each deleted task. -/
def deleteTask (db : DB) (uid : Nat) (tid : Nat) : DB × Nat :=
  let pred := fun t : TaskRow => t.id == tid && tasks_using uid t
  let deadTasks := (db.tasks.filter pred).map (fun t => t.id)
  ({ db with
     tasks := db.tasks.filter (fun t => !pred t),
     task_comments :=
       db.task_comments.filter (fun r => !deadTasks.contains r.task_id),
     task_attachments :=
       db.task_attachments.filter (fun r => !deadTasks.contains r.task_id) },
   (db.tasks.filter pred).length)

/-- A partial update of a `tasks` row, as issued by the UI components
(`supabase.from('tasks').update({...})`): each field is present when the
update statement sets it.  A `some` value in `priority`, `due_date`,
`start_date` or `tags` may itself set the column to NULL. -/
structure TaskPatch where
  name : Option String
  description : Option String
  assignee : Option String
  status : Option String
  category : Option String
  priority : Option (Option String)
  due_date : Option (Option String)
  start_date : Option (Option String)
  tags : Option (Option (List String))
  deriving DecidableEq, Repr

/-- Apply a patch to a row: set columns mentioned, keep the rest. -/
def applyPatch (p : TaskPatch) (t : TaskRow) : TaskRow :=
  { t with
    name := p.name.getD t.name,
    description := p.description.getD t.description,
    assignee := p.assignee.getD t.assignee,
    status := p.status.getD t.status,
    category := p.category.getD t.category,
    priority := p.priority.getD t.priority,
    due_date := p.due_date.getD t.due_date,
    start_date := p.start_date.getD t.start_date,
    tags := p.tags.getD t.tags }

/-- `UPDATE tasks SET ... WHERE id = tid`: the RLS `USING` clause of
"Users can update their own tasks" filters the targeted rows; if any
updated row violates a check constraint or the `WITH CHECK` clause the
statement errors and nothing is applied; otherwise the new store and the
affected-row count are returned. -/
def updateTask (db : DB) (uid : Nat) (tid : Nat) (p : TaskPatch) :
    Except String (DB × Nat) :=
  let pred := fun t : TaskRow => t.id == tid && tasks_using uid t
  let updated := (db.tasks.filter pred).map (applyPatch p)
  if updated.any (fun t => !categoryCheck t.category) then
    .error "tasks_category_check"
  else if updated.any (fun t => !statusCheck t.status) then
    .error "tasks_status_check"
  else if updated.any (fun t => !priorityCheck t.priority) then
    .error "tasks_priority_check"
  else if updated.any (fun t => !tasks_insert_check uid t) then
    .error "new row violates row-level security policy for table tasks"
  else
    .ok ({ db with
           tasks := db.tasks.map (fun t => if pred t then applyPatch p t else t) },
         (db.tasks.filter pred).length)

/-- The statement kinds a PostgreSQL trigger can fire on. -/
inductive TriggerEvent
  | insert
  | update
  | delete
  deriving DecidableEq, Repr

/-- Declaration data of a trigger: its timing, the event it fires on, and
whether it runs once per affected row. -/
structure TriggerDef where
  timing : String
  event : TriggerEvent
  forEachRow : Bool
  deriving DecidableEq, Repr

/-- `CREATE TRIGGER create_categories_on_client_insert AFTER INSERT ON
clients FOR EACH ROW EXECUTE FUNCTION create_default_categories()`. -/
def create_categories_on_client_insert : TriggerDef :=
  { timing := "AFTER", event := TriggerEvent.insert, forEachRow := true }

/-- JSON request body of the event proxy (`interface CalendarEvent` in
`google-calendar-sync/index.ts`, the fields the handler reads). -/
structure EventBody where
  title : String
  description : String
  date : String
  time : String
  deriving DecidableEq, Repr

/-- An incoming HTTP request to the event proxy: method, the `action` and
`id` query parameters, and the parsed JSON body. -/
structure Req where
  method : String
  action : Option String
  id : Option Nat
  body : EventBody
  deriving DecidableEq, Repr

/-- The JSON payload of a proxy response. -/
inductive RespBody
  | errorMsg (msg : String)
  | events (es : List EventRow)
  | event (e : EventRow)
  | success
  | empty
  deriving DecidableEq, Repr

/-- An HTTP response of the event proxy. -/
structure Response where
  status : Nat
  body : RespBody
  deriving DecidableEq, Repr

/-- Semantics of the supabase-js `.single()` modifier used by the update
action: succeeds only when the result set has exactly one row, and errors
otherwise (also on zero rows). -/
def singleResult (rows : List EventRow) : Except String EventRow :=
  match rows with
  | [e] => .ok e
  | _ => .error "JSON object requested, multiple (or no) rows returned"

/-- Insert an event into sorted-by-date position (ascending). -/
def insertByDate (e : EventRow) : List EventRow → List EventRow
  | [] => [e]
  | x :: xs => if e.date ≤ x.date then e :: x :: xs else x :: insertByDate e xs

/-- Sort events by `date` ascending (`.order('date', { ascending: true })`). -/
def sortByDate (l : List EventRow) : List EventRow :=
  l.foldr insertByDate []

/-- The `list` action: events of the caller, ordered by date ascending. -/
def listAction (db : DB) (uid : Nat) : Response :=
  { status := 200,
    body := RespBody.events (sortByDate (db.calendar_events.filter (fun e => e.user_id == uid))) }

/-- The `create` action: inserts a row owned by the caller with a null
`google_event_id`, returning the created row. -/
def createAction (db : DB) (uid : Nat) (body : EventBody) : Response × DB :=
  let row : EventRow :=
    { id := db.nextId, google_event_id := none, title := body.title,
      description := body.description, date := body.date, time := body.time,
      user_id := uid }
  ({ status := 200, body := RespBody.event row },
   { db with calendar_events := db.calendar_events ++ [row], nextId := db.nextId + 1 })

/-- The `update` action body (after the id check): updates the row matching
`.eq('id', eventId).eq('user_id', user.id)`, then `.select().single()`; the
`.single()` error is thrown and caught by the handler's catch-all, which
returns a 500 response with the error message. -/
def updateAction (db : DB) (uid : Nat) (eid : Nat) (body : EventBody) :
    Response × DB :=
  let pred := fun e : EventRow => e.id == eid && e.user_id == uid
  let db1 :=
    { db with
      calendar_events := db.calendar_events.map (fun e =>
        if pred e then
          { e with title := body.title, description := body.description,
                   date := body.date, time := body.time }
        else e) }
  match singleResult (db1.calendar_events.filter pred) with
  | .ok e => ({ status := 200, body := RespBody.event e }, db1)
  | .error m => ({ status := 500, body := RespBody.errorMsg m }, db1)

/-- The `delete` action body (after the id check): deletes the rows matching
`.eq('id', eventId).eq('user_id', user.id)` and answers `{ success: true }`
whether or not any row matched. -/
def deleteAction (db : DB) (uid : Nat) (eid : Nat) : Response × DB :=
  let pred := fun e : EventRow => e.id == eid && e.user_id == uid
  ({ status := 200, body := RespBody.success },
   { db with calendar_events := db.calendar_events.filter (fun e => !pred e) })

/-- The whole `google-calendar-sync` handler: CORS preflight, bearer-token
validation (`auth` is `some uid` when `supabase.auth.getUser` returned a
user, `none` when it errored), then dispatch on the `action` parameter;
`update`/`delete` first require the `id` parameter. -/
def handleRequest (auth : Option Nat) (req : Req) (db : DB) : Response × DB :=
  if req.method == "OPTIONS" then
    ({ status := 200, body := RespBody.empty }, db)
  else
    match auth with
    | none => ({ status := 401, body := RespBody.errorMsg "Unauthorized" }, db)
    | some uid =>
      match req.action with
      | some "list" => (listAction db uid, db)
      | some "create" => createAction db uid req.body
      | some "update" =>
        match req.id with
        | none => ({ status := 400, body := RespBody.errorMsg "Event ID required" }, db)
        | some eid => updateAction db uid eid req.body
      | some "delete" =>
        match req.id with
        | none => ({ status := 400, body := RespBody.errorMsg "Event ID required" }, db)
        | some eid => deleteAction db uid eid
      | _ => ({ status := 400, body := RespBody.errorMsg "Invalid action" }, db)

/-! ### Concrete fixtures used by counterexamples and witnesses -/

/-- The empty store. -/
def emptyDB : DB :=
  { clients := [], client_categories := [], tasks := [], task_comments := [],
    task_attachments := [], calendar_events := [], nextId := 0 }

/-- A store holding one client (id 1) owned by identity 2. -/
def foreignClientDB : DB :=
  { emptyDB with clients := [⟨1, 2, "Acme"⟩], nextId := 10 }

/-- A task declared by identity 1 that references client 1 (owned by 2). -/
def crossOwnerTask : TaskRow :=
  { id := 5, user_id := 1, client_id := some 1, category := "tasks",
    name := "t", description := "", assignee := "", status := "Pending",
    due_date := none, start_date := none, priority := some "Medium", tags := none }

/-- A task insert payload whose `priority` column is NULL. -/
def nullPriorityTask : TaskRow :=
  { id := 7, user_id := 1, client_id := none, category := "tasks",
    name := "n", description := "", assignee := "", status := "Pending",
    due_date := none, start_date := none, priority := none, tags := none }

/-- A well-formed event request body. -/
def exBody : EventBody :=
  { title := "Standup", description := "d", date := "2025-01-02", time := "09:00" }

/-- A store holding one calendar event (id 1) owned by identity 2. -/
def foreignEventDB : DB :=
  { emptyDB with
    calendar_events := [⟨1, none, "Standup", "", "2025-01-02", "09:00", 2⟩],
    nextId := 5 }

/-! ### C1 -/

/-- C1 counterexample: with client 1 owned by identity 2, identity 1 inserts
a task whose `user_id` is 1 and whose `client_id` references that foreign
client; the claim says the insert is rejected, but it succeeds — the tasks
INSERT policy checks only `auth.uid() = user_id`. -/
theorem C1_counterexample :
    (insertTask foreignClientDB 1 crossOwnerTask).isOk = true
    ∧ foreignClientDB.clients.any (fun c => c.id == 1 && c.user_id != 1) = true := by
  decide

/-- C1 (amended): a task insert by an authenticated caller is permitted
exactly when the row's `user_id` equals the caller's identity and the table
constraints hold; the owner of the referenced client is not consulted, so
an insert referencing a client owned by a different identity succeeds. -/
theorem C1_insert_checks_only_user_id (db : DB) (uid : Nat) (row : TaskRow)
    (cid : Nat) (c : ClientRow)
    (hc : c ∈ db.clients) (hcid : c.id = cid) (hrow : row.client_id = some cid)
    (howner : c.user_id ≠ uid)
    (huid : row.user_id = uid)
    (hpk : db.tasks.any (fun t => t.id == row.id) = false)
    (hcat : categoryCheck row.category = true)
    (hst : statusCheck row.status = true)
    (hpr : priorityCheck row.priority = true) :
    (insertTask db uid row).isOk = true := by
  have hex : clientExists db cid = true := by
    unfold clientExists
    exact List.any_eq_true.mpr ⟨c, hc, by simp [hcid]⟩
  unfold insertTask tasks_insert_check
  simp [huid, hpk, hcat, hst, hpr, hrow, hex, Except.isOk, Except.toBool]

/-- C1 witness: the amended theorem applied to the concrete foreign-client
store. -/
theorem C1_insert_checks_only_user_id_witness :
    (insertTask foreignClientDB 1 crossOwnerTask).isOk = true :=
  C1_insert_checks_only_user_id foreignClientDB 1 crossOwnerTask 1 ⟨1, 2, "Acme"⟩
    (by decide) (by decide) (by decide) (by decide) (by decide) (by decide)
    (by decide) (by decide) (by decide)

/-! ### C2 -/

/-- C2 counterexample: identity 1 reads, updates and deletes client 1,
which is owned by identity 2.  Every operation silently filters: the read
is empty, the update and delete affect zero rows and leave the store
unchanged, and no error is produced — the very same observables as running
the operations against the empty store, so the caller cannot distinguish
"no permission" from "no matching row". -/
theorem C2_counterexample :
    selectClients foreignClientDB 1 = []
    ∧ selectClientById foreignClientDB 1 1 = []
    ∧ deleteClient foreignClientDB 1 1 = (foreignClientDB, 0)
    ∧ updateClientName foreignClientDB 1 1 "X" = (foreignClientDB, 0)
    ∧ selectClients emptyDB 1 = []
    ∧ deleteClient emptyDB 1 1 = (emptyDB, 0)
    ∧ updateClientName emptyDB 1 1 "X" = (emptyDB, 0) := by
  decide

/-- `optMem` over an empty list of parent ids is always false. -/
theorem optMem_nil (o : Option Nat) : TaskManager.optMem [] o = false := by
  cases o <;> rfl

/-- C2 (amended): when the ownership predicate holds for no `clients` row
with the requested id, the read returns the empty set and the update and
delete succeed touching zero rows and leaving the store unchanged — the
operations filter silently instead of raising a denial, so the caller
cannot distinguish "no permission" from "no matching row". -/
theorem C2_rls_filters_instead_of_denying (db : DB) (uid cid : Nat) (nm : String)
    (h : db.clients.any (fun c => c.id == cid && clients_using uid c) = false) :
    selectClientById db uid cid = []
    ∧ deleteClient db uid cid = (db, 0)
    ∧ updateClientName db uid cid nm = (db, 0) := by
  obtain ⟨cs, ccs, ts, tcs, tas, evs, n⟩ := db
  have hall : ∀ c ∈ cs, (c.id == cid && clients_using uid c) = false := by
    intro c hcmem
    have hx := List.any_eq_false.mp h c hcmem
    simpa using hx
  have hfil : cs.filter (fun c => c.id == cid && clients_using uid c) = [] :=
    List.filter_eq_nil_iff.mpr (fun c hcmem => by simp [hall c hcmem])
  have hkeep : cs.filter (fun c => !(c.id == cid && clients_using uid c)) = cs :=
    List.filter_eq_self.mpr (fun c hcmem => by simp [hall c hcmem])
  refine ⟨?_, ?_, ?_⟩
  · exact hfil
  · unfold deleteClient
    simp only [hfil, hkeep, List.map_nil, List.contains_nil, optMem_nil,
      Bool.not_false, List.filter_true, List.filter_false, List.length_nil]
  · unfold updateClientName
    simp only [hfil, List.length_nil]
    have hmap : (cs.map (fun c =>
        if c.id == cid && clients_using uid c then { c with name := nm } else c)) = cs := by
      refine (List.map_congr_left ?_).trans (List.map_id' cs)
      intro c hcmem
      simp [hall c hcmem]
    rw [hmap]

/-- C2 witness: the amended theorem applied to the store holding one
client owned by identity 2, with caller identity 1. -/
theorem C2_rls_filters_instead_of_denying_witness :
    selectClientById foreignClientDB 1 1 = []
    ∧ deleteClient foreignClientDB 1 1 = (foreignClientDB, 0)
    ∧ updateClientName foreignClientDB 1 1 "X" = (foreignClientDB, 0) :=
  C2_rls_filters_instead_of_denying foreignClientDB 1 1 "X" (by decide)

/-! ### C9 and C10 -/

/-- C9: a request whose bearer credential fails validation (so the auth
step yields no user) receives a 401 response with body `error =
"Unauthorized"`, the store is unchanged (no store operation), and no event
data is returned. -/
theorem C9_invalid_token_unauthorized (req : Req) (db : DB)
    (h : req.method ≠ "OPTIONS") :
    handleRequest none req db
      = ({ status := 401, body := RespBody.errorMsg "Unauthorized" }, db) := by
  unfold handleRequest
  simp [h]

/-- C9 witness: a concrete list request with a failed credential. -/
theorem C9_invalid_token_unauthorized_witness :
    handleRequest none { method := "GET", action := some "list", id := none, body := exBody }
        emptyDB
      = ({ status := 401, body := RespBody.errorMsg "Unauthorized" }, emptyDB) :=
  C9_invalid_token_unauthorized
    { method := "GET", action := some "list", id := none, body := exBody } emptyDB
    (by decide)

/-- C10: an authenticated `update` or `delete` request that omits the `id`
query parameter receives a 400 response with body `error = "Event ID
required"`, and the store is untouched. -/
theorem C10_missing_id_bad_request (uid : Nat) (m : String) (b : EventBody)
    (db : DB) (h : m ≠ "OPTIONS") :
    handleRequest (some uid) { method := m, action := some "update", id := none, body := b } db
      = ({ status := 400, body := RespBody.errorMsg "Event ID required" }, db)
    ∧ handleRequest (some uid) { method := m, action := some "delete", id := none, body := b } db
      = ({ status := 400, body := RespBody.errorMsg "Event ID required" }, db) := by
  unfold handleRequest
  simp [h]

/-- C10 witness: concrete update and delete requests without an id. -/
theorem C10_missing_id_bad_request_witness :
    handleRequest (some 1) { method := "POST", action := some "update", id := none, body := exBody }
        emptyDB
      = ({ status := 400, body := RespBody.errorMsg "Event ID required" }, emptyDB)
    ∧ handleRequest (some 1) { method := "POST", action := some "delete", id := none, body := exBody }
        emptyDB
      = ({ status := 400, body := RespBody.errorMsg "Event ID required" }, emptyDB) :=
  C10_missing_id_bad_request 1 "POST" exBody emptyDB (by decide)

/-! ### Shape lemmas for the provisioning transaction -/

/-- A successful category insert appends exactly the one generated row and
advances the id generator. -/
theorem insertCategoryRow_ok {db db' : DB} {cid : Nat} {cat : String}
    (h : insertCategoryRow db cid cat = Except.ok db') :
    db' = { db with
            client_categories := db.client_categories ++ [⟨db.nextId, cid, cat⟩],
            nextId := db.nextId + 1 } := by
  unfold insertCategoryRow at h
  split at h
  · exact absurd h (by simp)
  · split at h
    · exact absurd h (by simp)
    · split at h
      · exact absurd h (by simp)
      · exact (Except.ok.inj h).symm

/-- A successful bare client insert appends exactly the new row. -/
theorem insertClientRow_ok {db db' : DB} {uid : Nat} {row : ClientRow}
    (h : insertClientRow db uid row = Except.ok db') :
    db' = { db with clients := db.clients ++ [row] } := by
  unfold insertClientRow at h
  split at h
  · exact absurd h (by simp)
  · split at h
    · exact absurd h (by simp)
    · exact (Except.ok.inj h).symm

/-- A successful trigger run appends exactly the rows `tasks`, `gtm`,
`recurring` for the new client, in order, with generated ids. -/
theorem create_default_categories_ok {db db' : DB} {c : ClientRow}
    (h : create_default_categories db c = Except.ok db') :
    db' = { db with
            client_categories := db.client_categories ++
              [⟨db.nextId, c.id, "tasks"⟩, ⟨db.nextId + 1, c.id, "gtm"⟩,
               ⟨db.nextId + 1 + 1, c.id, "recurring"⟩],
            nextId := db.nextId + 1 + 1 + 1 } := by
  unfold create_default_categories at h
  split at h
  · exact absurd h (by simp)
  · rename_i db1 e1
    split at h
    · exact absurd h (by simp)
    · rename_i db2 e2
      have h1 := insertCategoryRow_ok e1
      subst h1
      have h2 := insertCategoryRow_ok e2
      subst h2
      have h3 := insertCategoryRow_ok h
      subst h3
      simp

/-- A category insert for an already-present `(client_id, category)` pair
never succeeds: one of the guards fires (in a store where the client and
pair exist, the `UNIQUE(client_id, category)` guard). -/
theorem insertCategoryRow_fails_on_taken_pair {db : DB} {cid : Nat} {cat : String}
    (h : categoryPairTaken db cid cat = true) :
    (insertCategoryRow db cid cat).isOk = false := by
  unfold insertCategoryRow
  split
  · rfl
  · split
    · rfl
    · simp [h, Except.isOk, Except.toBool]

/-! ### C3 -/

/-- C3: a successful client insert leaves the new client with category
rows tagged exactly `tasks`, `gtm`, `recurring` (in that order), and the
category rows of every other client id untouched — the categories are
keyed by the client's id, not its name, so a second client with the same
name gets its own three rows without collision. -/
theorem C3_client_insert_creates_three_categories (db db1 : DB) (uid : Nat)
    (c : ClientRow)
    (hnone : db.client_categories.filter (fun r => r.client_id == c.id) = [])
    (h : insertClient db uid c = Except.ok db1) :
    ((db1.client_categories.filter (fun r => r.client_id == c.id)).map
        (fun r => r.category) = ["tasks", "gtm", "recurring"])
    ∧ ∀ cid : Nat, cid ≠ c.id →
        db1.client_categories.filter (fun r => r.client_id == cid)
          = db.client_categories.filter (fun r => r.client_id == cid) := by
  unfold insertClient at h
  split at h
  · exact absurd h (by simp)
  · rename_i dbA e1
    have hA := insertClientRow_ok e1
    subst hA
    have hB := create_default_categories_ok h
    subst hB
    constructor
    · simp [List.filter_append, hnone]
    · intro cid hne
      have hbeq : (c.id == cid) = false := beq_eq_false_iff_ne.mpr (Ne.symm hne)
      simp [List.filter_append, hbeq]

/-- A store holding client 1 (identity 7, named "Acme") with its three
categories already provisioned. -/
def acmeDB : DB :=
  { emptyDB with
    clients := [⟨1, 7, "Acme"⟩],
    client_categories := [⟨0, 1, "tasks"⟩, ⟨1, 1, "gtm"⟩, ⟨2, 1, "recurring"⟩],
    nextId := 3 }

/-- The store after identity 7 inserts a second client also named "Acme"
(id 2): the new client carries its own three categories. -/
def acmeDB' : DB :=
  { emptyDB with
    clients := [⟨1, 7, "Acme"⟩, ⟨2, 7, "Acme"⟩],
    client_categories := [⟨0, 1, "tasks"⟩, ⟨1, 1, "gtm"⟩, ⟨2, 1, "recurring"⟩,
                          ⟨3, 2, "tasks"⟩, ⟨4, 2, "gtm"⟩, ⟨5, 2, "recurring"⟩],
    nextId := 6 }

/-- C3 witness: inserting a second client named "Acme" next to an existing
"Acme" yields exactly the three category rows for the new id and leaves
the first client's rows untouched. -/
theorem C3_client_insert_creates_three_categories_witness :
    ((acmeDB'.client_categories.filter (fun r => r.client_id == 2)).map
        (fun r => r.category) = ["tasks", "gtm", "recurring"])
    ∧ acmeDB'.client_categories.filter (fun r => r.client_id == 1)
        = acmeDB.client_categories.filter (fun r => r.client_id == 1) := by
  have hmain := C3_client_insert_creates_three_categories acmeDB acmeDB' 7
    ⟨2, 7, "Acme"⟩ (by decide) (by rfl)
  exact ⟨hmain.1, hmain.2 1 (by decide)⟩

/-! ### C4 -/

/-- C4: client creation is atomic — if the bare client insert succeeds but
the trigger's category provisioning fails, the whole `insertClient`
transaction fails with that error, and since the error carries no store,
neither the client row nor any category row is persisted; the caller
observes only the success or failure of the client insert. -/
theorem C4_client_creation_atomic (db dbA : DB) (uid : Nat) (c : ClientRow)
    (e : String)
    (h1 : insertClientRow db uid c = Except.ok dbA)
    (h2 : create_default_categories dbA c = Except.error e) :
    insertClient db uid c = Except.error e := by
  unfold insertClient
  rw [h1]
  exact h2

/-- A store containing a stray category row `(client 5, "tasks")`: after
client 5 is inserted, the trigger's first category insert violates the
uniqueness constraint. -/
def dupCategoryDB : DB :=
  { emptyDB with client_categories := [⟨0, 5, "tasks"⟩], nextId := 3 }

/-- C4 witness: with the pair `(5, "tasks")` already present, inserting
client 5 fails as a whole with the uniqueness-violation error. -/
theorem C4_client_creation_atomic_witness :
    insertClient dupCategoryDB 9 ⟨5, 9, "B"⟩
      = Except.error "duplicate key value violates unique constraint client_categories_client_id_category_key" :=
  C4_client_creation_atomic dupCategoryDB
    { dupCategoryDB with clients := [⟨5, 9, "B"⟩] } 9 ⟨5, 9, "B"⟩
    "duplicate key value violates unique constraint client_categories_client_id_category_key"
    (by rfl) (by rfl)

/-! ### C7 -/

/-- C7: default-category provisioning is not idempotent — after a
successful run for a client, running it again for the same client fails
(its first insert violates `UNIQUE(client_id, category)`); and the trigger
`create_categories_on_client_insert` is declared on the INSERT event only,
never on UPDATE. -/
theorem C7_provisioning_not_idempotent (db db1 : DB) (c : ClientRow)
    (h : create_default_categories db c = Except.ok db1) :
    (create_default_categories db1 c).isOk = false
    ∧ create_categories_on_client_insert.event = TriggerEvent.insert
    ∧ create_categories_on_client_insert.event ≠ TriggerEvent.update := by
  have hsh := create_default_categories_ok h
  subst hsh
  refine ⟨?_, rfl, by decide⟩
  have htaken : categoryPairTaken
      { db with
        client_categories := db.client_categories ++
          [⟨db.nextId, c.id, "tasks"⟩, ⟨db.nextId + 1, c.id, "gtm"⟩,
           ⟨db.nextId + 1 + 1, c.id, "recurring"⟩],
        nextId := db.nextId + 1 + 1 + 1 } c.id "tasks" := by
    unfold categoryPairTaken
    simp
  have herr := insertCategoryRow_fails_on_taken_pair htaken
  unfold create_default_categories
  split
  · rfl
  · rename_i db2 e2
    rw [e2] at herr
    exact absurd herr (by simp [Except.isOk, Except.toBool])

/-- A store holding a bare client 1 with no categories yet. -/
def bareClientDB : DB :=
  { emptyDB with clients := [⟨1, 7, "A"⟩] }

/-- C7 witness: provisioning client 1 succeeds once, and the theorem then
gives that a second run fails and that the trigger fires on insert only. -/
theorem C7_provisioning_not_idempotent_witness :
    (create_default_categories
        { bareClientDB with
          client_categories := [⟨0, 1, "tasks"⟩, ⟨1, 1, "gtm"⟩, ⟨2, 1, "recurring"⟩],
          nextId := 3 } ⟨1, 7, "A"⟩).isOk = false
    ∧ create_categories_on_client_insert.event = TriggerEvent.insert
    ∧ create_categories_on_client_insert.event ≠ TriggerEvent.update :=
  C7_provisioning_not_idempotent bareClientDB
    { bareClientDB with
      client_categories := [⟨0, 1, "tasks"⟩, ⟨1, 1, "gtm"⟩, ⟨2, 1, "recurring"⟩],
      nextId := 3 } ⟨1, 7, "A"⟩ (by rfl)

/-! ### C5 -/

/-- C5: deleting an owned client removes every `client_categories` row and
every `tasks` row referencing it, and deleting an owned task removes every
`task_comments` and `task_attachments` row referencing it — the
`ON DELETE CASCADE` foreign keys of the schema. -/
theorem C5_cascading_deletes (db : DB) (uid cid tid : Nat)
    (hc : db.clients.any (fun c => c.id == cid && clients_using uid c) = true)
    (ht : db.tasks.any (fun t => t.id == tid && tasks_using uid t) = true) :
    (∀ r ∈ (deleteClient db uid cid).1.client_categories, r.client_id ≠ cid)
    ∧ (∀ t ∈ (deleteClient db uid cid).1.tasks, t.client_id ≠ some cid)
    ∧ (∀ r ∈ (deleteTask db uid tid).1.task_comments, r.task_id ≠ tid)
    ∧ (∀ r ∈ (deleteTask db uid tid).1.task_attachments, r.task_id ≠ tid) := by
  obtain ⟨c0, hc0mem, hc0⟩ := List.any_eq_true.mp hc
  obtain ⟨t0, ht0mem, ht0⟩ := List.any_eq_true.mp ht
  rw [Bool.and_eq_true] at hc0 ht0
  have hdeadc : cid ∈
      (db.clients.filter (fun c => c.id == cid && clients_using uid c)).map
        (fun c => c.id) := by
    refine List.mem_map.mpr ⟨c0, List.mem_filter.mpr ⟨hc0mem, ?_⟩, ?_⟩
    · rw [Bool.and_eq_true]; exact hc0
    · simpa using hc0.1
  have hdeadt : tid ∈
      (db.tasks.filter (fun t => t.id == tid && tasks_using uid t)).map
        (fun t => t.id) := by
    refine List.mem_map.mpr ⟨t0, List.mem_filter.mpr ⟨ht0mem, ?_⟩, ?_⟩
    · rw [Bool.and_eq_true]; exact ht0
    · simpa using ht0.1
  have hc0id : c0.id = cid := by simpa using hc0.1
  have ht0id : t0.id = tid := by simpa using ht0.1
  refine ⟨?_, ?_, ?_, ?_⟩
  · intro r hr heq
    simp only [deleteClient, List.mem_filter] at hr
    have hcon := hr.2
    rw [heq] at hcon
    simp at hcon
    exact (hcon c0 hc0mem hc0id hc0.2) hc0id
  · intro t htm heq
    simp only [deleteClient, List.mem_filter] at htm
    have hcon := htm.2
    rw [heq] at hcon
    simp [optMem] at hcon
    exact (hcon c0 hc0mem hc0id hc0.2) hc0id
  · intro r hr heq
    simp only [deleteTask, List.mem_filter] at hr
    have hcon := hr.2
    rw [heq] at hcon
    simp at hcon
    exact (hcon t0 ht0mem ht0id ht0.2) ht0id
  · intro r hr heq
    simp only [deleteTask, List.mem_filter] at hr
    have hcon := hr.2
    rw [heq] at hcon
    simp at hcon
    exact (hcon t0 ht0mem ht0id ht0.2) ht0id

/-- A populated store: client 1 (identity 3) with one category row, one
task (id 4, identity 3, referencing client 1), one comment and one
attachment on task 4. -/
def populatedDB : DB :=
  { clients := [⟨1, 3, "Acme"⟩],
    client_categories := [⟨0, 1, "tasks"⟩],
    tasks := [⟨4, 3, some 1, "tasks", "t", "", "", "Pending", none, none,
               some "Medium", none⟩],
    task_comments := [⟨10, 4, 3, "u@example.com", "hi"⟩],
    task_attachments := [⟨11, 4, "url", "f.txt", 7, "text/plain", 3⟩],
    calendar_events := [],
    nextId := 20 }

/-- C5 witness: the cascade theorem applied to the populated store. -/
theorem C5_cascading_deletes_witness :
    (∀ r ∈ (deleteClient populatedDB 3 1).1.client_categories, r.client_id ≠ 1)
    ∧ (∀ t ∈ (deleteClient populatedDB 3 1).1.tasks, t.client_id ≠ some 1)
    ∧ (∀ r ∈ (deleteTask populatedDB 3 4).1.task_comments, r.task_id ≠ 4)
    ∧ (∀ r ∈ (deleteTask populatedDB 3 4).1.task_attachments, r.task_id ≠ 4) :=
  C5_cascading_deletes populatedDB 3 1 4 (by decide) (by decide)

/-! ### C6 -/

/-- A successful task insert appends exactly the new row, and its guards
certify the check constraints of the inserted row. -/
theorem insertTask_ok {db db' : DB} {uid : Nat} {row : TaskRow}
    (h : insertTask db uid row = Except.ok db') :
    db' = { db with tasks := db.tasks ++ [row] }
    ∧ categoryCheck row.category = true
    ∧ statusCheck row.status = true
    ∧ priorityCheck row.priority = true := by
  unfold insertTask at h
  split at h
  · exact absurd h (by simp)
  split at h
  · exact absurd h (by simp)
  split at h
  · exact absurd h (by simp)
  split at h
  · exact absurd h (by simp)
  split at h
  · exact absurd h (by simp)
  split at h
  · exact absurd h (by simp)
  rename_i h1 h2 h3 h4 h5 h6
  exact ⟨(Except.ok.inj h).symm, by simpa using h4, by simpa using h5,
    by simpa using h6⟩

/-- A successful task update applies the patch to exactly the rows the RLS
`USING` clause admits, and its guards certify the check constraints on
every updated row. -/
theorem updateTask_ok {db : DB} {uid tid : Nat} {p : TaskPatch} {r : DB × Nat}
    (h : updateTask db uid tid p = Except.ok r) :
    r.1 = { db with tasks := db.tasks.map (fun t =>
        if t.id == tid && tasks_using uid t then applyPatch p t else t) }
    ∧ (((db.tasks.filter (fun t => t.id == tid && tasks_using uid t)).map
          (applyPatch p)).any (fun t => !categoryCheck t.category)) = false
    ∧ (((db.tasks.filter (fun t => t.id == tid && tasks_using uid t)).map
          (applyPatch p)).any (fun t => !statusCheck t.status)) = false
    ∧ (((db.tasks.filter (fun t => t.id == tid && tasks_using uid t)).map
          (applyPatch p)).any (fun t => !priorityCheck t.priority)) = false := by
  simp only [updateTask] at h
  split at h
  · exact absurd h (by simp)
  split at h
  · exact absurd h (by simp)
  split at h
  · exact absurd h (by simp)
  split at h
  · exact absurd h (by simp)
  rename_i h1 h2 h3 h4
  refine ⟨?_, by simpa using h1, by simpa using h2, by simpa using h3⟩
  have := Except.ok.inj h
  rw [← this]

/-- The invariant of C6 as amended: every stored task passes the three
check constraints (for the nullable `priority`, NULL passes). -/
def tasksChecksOk (db : DB) : Prop :=
  ∀ t ∈ db.tasks, statusCheck t.status = true ∧ categoryCheck t.category = true
    ∧ priorityCheck t.priority = true

/-- An all-`none` update patch. -/
def emptyPatch : TaskPatch :=
  ⟨none, none, none, none, none, none, none, none, none⟩

/-- A task insert payload with the out-of-set status `"Blocked"`. -/
def blockedTask : TaskRow :=
  { id := 8, user_id := 1, client_id := none, category := "tasks",
    name := "b", description := "", assignee := "", status := "Blocked",
    due_date := none, start_date := none, priority := some "Low", tags := none }

/-- C6 counterexample: a task insert whose `priority` column is NULL is
accepted (the SQL check passes on NULL because the column is nullable),
so the resulting reachable state holds a task whose priority is not in
{Low, Medium, High, Urgent}, contradicting the claim that such an insert
is rejected. -/
theorem C6_counterexample :
    insertTask emptyDB 1 nullPriorityTask
      = Except.ok { emptyDB with tasks := [nullPriorityTask] }
    ∧ ({ emptyDB with tasks := [nullPriorityTask] } : DB).tasks.any
        (fun t => t.priority.isNone) = true := by
  exact ⟨rfl, by decide⟩

/-- C6 (amended): in every state satisfying the check constraints, a task
insert or update preserves them — every stored task has status in
{Pending, In-Progress, Completed}, category in {tasks, gtm, recurring},
and priority NULL or in {Low, Medium, High, Urgent} — and an insert or
update that supplies a status, category, or non-null priority outside
these sets is rejected. -/
theorem C6_checks_invariant_and_rejection (db : DB) (uid tid : Nat)
    (row : TaskRow) (p : TaskPatch) (hdb : tasksChecksOk db) :
    (∀ db', insertTask db uid row = Except.ok db' → tasksChecksOk db')
    ∧ (∀ r, updateTask db uid tid p = Except.ok r → tasksChecksOk r.1)
    ∧ (statusCheck row.status = false → (insertTask db uid row).isOk = false)
    ∧ (categoryCheck row.category = false → (insertTask db uid row).isOk = false)
    ∧ (priorityCheck row.priority = false → (insertTask db uid row).isOk = false)
    ∧ ((((db.tasks.filter (fun t => t.id == tid && tasks_using uid t)).map
          (applyPatch p)).any (fun t => !statusCheck t.status)) = true →
        (updateTask db uid tid p).isOk = false) := by
  have hrej : (categoryCheck row.category = false ∨ statusCheck row.status = false
      ∨ priorityCheck row.priority = false) → (insertTask db uid row).isOk = false := by
    intro hbad
    cases hres : insertTask db uid row with
    | error e => rfl
    | ok db' =>
      obtain ⟨_, hcat, hst, hpr⟩ := insertTask_ok hres
      rcases hbad with hb | hb | hb <;> simp_all
  refine ⟨?_, ?_, fun h => hrej (Or.inr (Or.inl h)), fun h => hrej (Or.inl h),
    fun h => hrej (Or.inr (Or.inr h)), ?_⟩
  · intro db' h
    obtain ⟨hshape, hcat, hst, hpr⟩ := insertTask_ok h
    subst hshape
    intro t htmem
    rcases List.mem_append.mp htmem with hin | hin
    · exact hdb t hin
    · rw [List.mem_singleton.mp hin]
      exact ⟨hst, hcat, hpr⟩
  · intro r h
    obtain ⟨hshape, hcat, hst, hpr⟩ := updateTask_ok h
    rw [hshape]
    intro t htmem
    obtain ⟨s, hsmem, hs⟩ := List.mem_map.mp htmem
    by_cases hp : (s.id == tid && tasks_using uid s) = true
    · rw [if_pos hp] at hs
      have hmemu : applyPatch p s ∈
          (db.tasks.filter (fun t => t.id == tid && tasks_using uid t)).map
            (applyPatch p) :=
        List.mem_map.mpr ⟨s, List.mem_filter.mpr ⟨hsmem, hp⟩, rfl⟩
      rw [← hs]
      refine ⟨?_, ?_, ?_⟩
      · simpa using List.any_eq_false.mp hst _ hmemu
      · simpa using List.any_eq_false.mp hcat _ hmemu
      · simpa using List.any_eq_false.mp hpr _ hmemu
    · rw [if_neg hp] at hs
      rw [← hs]
      exact hdb s hsmem
  · intro hbad
    cases hres : updateTask db uid tid p with
    | error e => rfl
    | ok r =>
      obtain ⟨_, _, hst, _⟩ := updateTask_ok hres
      simp_all

/-- C6 witness: the empty store satisfies the invariant, and inserting a
task with status "Blocked" is rejected. -/
theorem C6_checks_invariant_and_rejection_witness :
    tasksChecksOk emptyDB ∧ (insertTask emptyDB 1 blockedTask).isOk = false :=
  ⟨by simp [tasksChecksOk, emptyDB],
   (C6_checks_invariant_and_rejection emptyDB 1 0 blockedTask emptyPatch
      (by simp [tasksChecksOk, emptyDB])).2.2.1 (by decide)⟩

/-! ### C8 -/

/-- C8 counterexample: an authenticated update request whose id matches no
row visible to the caller (the single stored event is owned by identity 2,
the caller is identity 1) is answered with a 500 error response — the
update path's `.single()` errors on zero rows — contradicting the claim
that a no-match lookup is represented as an empty/null result and not an
error. -/
theorem C8_counterexample :
    handleRequest (some 1)
        { method := "POST", action := some "update", id := some 1, body := exBody }
        foreignEventDB
      = ({ status := 500,
           body := RespBody.errorMsg "JSON object requested, multiple (or no) rows returned" },
         foreignEventDB) := by
  rfl

/-- C8 (amended): for an authenticated request whose id matches no row of
the caller, the delete action returns success with the store unchanged (no
error), but the update action returns a 500 error response (its
`.single()` requires exactly one resulting row), also leaving the store
unchanged. -/
theorem C8_no_match_split_behavior (db : DB) (uid eid : Nat) (body : EventBody)
    (h : db.calendar_events.any (fun e => e.id == eid && e.user_id == uid) = false) :
    deleteAction db uid eid = ({ status := 200, body := RespBody.success }, db)
    ∧ (updateAction db uid eid body).1
        = { status := 500,
            body := RespBody.errorMsg "JSON object requested, multiple (or no) rows returned" }
    ∧ (updateAction db uid eid body).2 = db := by
  obtain ⟨cs, ccs, ts, tcs, tas, evs, n⟩ := db
  have hall : ∀ e ∈ evs, (e.id == eid && e.user_id == uid) = false := by
    intro e he
    simpa using List.any_eq_false.mp h e he
  have hkeep : evs.filter (fun e => !(e.id == eid && e.user_id == uid)) = evs :=
    List.filter_eq_self.mpr fun e he => by simp [hall e he]
  have hfil : evs.filter (fun e => e.id == eid && e.user_id == uid) = [] :=
    List.filter_eq_nil_iff.mpr fun e he => by simp [hall e he]
  have hmap : evs.map (fun e =>
      if e.id == eid && e.user_id == uid then
        { e with title := body.title, description := body.description,
                 date := body.date, time := body.time }
      else e) = evs :=
    (List.map_congr_left fun e he => by simp [hall e he]).trans (List.map_id' evs)
  refine ⟨?_, ?_, ?_⟩
  · unfold deleteAction
    simp only [hkeep]
  · unfold updateAction
    simp only [hmap, hfil]
    rfl
  · unfold updateAction
    simp only [hmap, hfil]
    rfl

/-- C8 witness: the amended split behavior on the store whose only event
is owned by a different identity. -/
theorem C8_no_match_split_behavior_witness :
    deleteAction foreignEventDB 1 1
      = ({ status := 200, body := RespBody.success }, foreignEventDB)
    ∧ (updateAction foreignEventDB 1 1 exBody).1
        = { status := 500,
            body := RespBody.errorMsg "JSON object requested, multiple (or no) rows returned" }
    ∧ (updateAction foreignEventDB 1 1 exBody).2 = foreignEventDB :=
  C8_no_match_split_behavior foreignEventDB 1 1 exBody (by decide)

end TaskManager
